import Mathlib

/-
Shallow embedding of the Chimera orchestration workflow engine
(apps/backend/src/graphs/: orchestration_state.py, orchestration_edges.py,
orchestration_nodes.py, orchestration_workflow.py).

Modelling conventions:
- Python TypedDicts become Lean structures; `None` becomes `Option.none`.
- Python in-place mutation of the state dict becomes explicit state passing:
  a node is a function `Env -> OrchestrationState -> OrchestrationState`, a
  conditional-edge router returns the pair (label, possibly-updated state),
  because two of the routers assign to `state` before returning.  The driver
  (`route_and_map` / `drive`) uses only the label: LangGraph's StateGraph
  keeps the state in per-key channels, assembles a fresh dict for every node
  and every conditional-edge call, and applies only node *return values* as
  channel updates, so in-place writes made inside a conditional-edge
  function are discarded and the next node receives the previous node's
  returned state, not the router's mutated copy.
- The only fallible / nondeterministic operations in the engine are the
  backend completion calls (`client.complete`, which may raise) and the JSON
  parse of a review response (which may raise and is caught in the same
  `try`).  They are modelled by an `Env` oracle: each call site reads a
  `CallResult` from the oracle, `.ok` for a normal return and `.exn e` for a
  raised exception with message `e`.  `uuid.uuid4()` and
  `datetime.utcnow().isoformat()` used by `_add_thought` are modelled by the
  oracle functions `thought_id` / `thought_time`, indexed by the number of
  thoughts appended so far.
- `asyncio.gather` over the per-backend helper coroutines is modelled by
  running the helpers sequentially (anthropic first, then google), the order
  used by the source in its sequential branch; the helpers write disjoint
  state fields apart from the appended thoughts, so only the interleaving of
  thought records is fixed by this choice.
- Python truthiness on `str | None` fields (`if not state["plan"]`) is
  `optStrTruthy`: `None` and the empty string are falsy.
- `len(code.split())` (split on whitespace runs, dropping empties) is
  `pyWordCount`.
- Python `float` literals that the engine itself produces (0.5, 0.8) are
  modelled as exact rationals; both are exactly representable, so no
  rounding behaviour is lost.
-/

namespace Chimera

/-- ClarifyingQuestion TypedDict from orchestration_state.py. -/
structure ClarifyingQuestion where
  id : String
  question : String
  context : String
  answer : Option String
  required : Bool
deriving DecidableEq

/-- ThoughtItem TypedDict from orchestration_state.py. -/
structure ThoughtItem where
  id : String
  text : String
  timestamp : String
  source : String
deriving DecidableEq

/-- CodeOutput TypedDict from orchestration_state.py. -/
structure CodeOutput where
  code : String
  model_used : String
  token_count : Nat
  thoughts : List ThoughtItem
  error : Option String
deriving DecidableEq

/-- ReviewResult TypedDict from orchestration_state.py. -/
structure ReviewResult where
  has_issues : Bool
  issues : List String
  suggestions : List String
  confidence : ℚ
deriving DecidableEq

/-- OrchestrationState TypedDict from orchestration_state.py.  The
`clarifying_*`, `skip_clarification`, `plan_content`, `plan_approved` and
`plan_modified_at` keys are absent from the dict built by
`_create_initial_state`; nodes read them only through `.get` with a default,
so they carry their defaults here. -/
structure OrchestrationState where
  job_id : String
  brief : String
  framework : String
  clarifying_questions : List ClarifyingQuestion
  clarifying_answers : List (String × String)
  skip_clarification : Bool
  plan_content : Option String
  plan_approved : Bool
  plan_modified_at : Option String
  plan : Option String
  implementation_strategy : Option String
  anthropic_output : Option CodeOutput
  google_output : Option CodeOutput
  anthropic_review : Option ReviewResult
  google_review : Option ReviewResult
  needs_refinement : Bool
  refinement_iteration : Int
  max_refinement_iterations : Int
  refinement_notes : Option String
  status : String
  current_phase : String
  error_message : Option String
  thoughts : List ThoughtItem
  enable_review : Bool
  review_strictness : String
  parallel_generation : Bool
deriving DecidableEq

/-- OrchestrationConfig TypedDict from orchestration_state.py. -/
structure OrchestrationConfig where
  max_refinement_iterations : Int
  enable_review : Bool
  review_strictness : String
  parallel_generation : Bool
  enable_checkpointing : Bool
  checkpoint_interval : Int
deriving DecidableEq

/-- Python truthiness of a `str | None` value: `None` and `""` are falsy. -/
def optStrTruthy : Option String → Bool
  | none => false
  | some s => !(s == "")

/-- Python `s.split()` with no separator: split on whitespace runs,
dropping empty pieces. -/
def pySplit (s : String) : List String :=
  (s.split (fun c => c.isWhitespace)).filter (fun piece => !(piece == ""))

/-- Python `len(s.split())`: the number of whitespace-separated words. -/
def pyWordCount (s : String) : Nat :=
  (pySplit s).length

/-- Outcome of one backend call site: a normal return or a raised
exception carrying `str(e)`. -/
inductive CallResult (α : Type) where
  | ok (value : α) : CallResult α
  | exn (message : String) : CallResult α
deriving DecidableEq

/-- Review JSON after `json.loads`, with each field optional to model the
`review_data.get(key, default)` reads in `_review_code`. -/
structure ReviewData where
  has_issues : Option Bool
  issues : Option (List String)
  suggestions : Option (List String)
  confidence : Option ℚ
deriving DecidableEq

/-- Oracle for one workflow run: outcomes of every backend call site, plus
the id / timestamp streams consumed by `_add_thought`.  Review and refine
calls are indexed by the refinement round in which they are issued. -/
structure Env where
  plan_completion : CallResult String
  anthropic_generation : CallResult String
  google_generation : CallResult String
  anthropic_review_call : Nat → CallResult ReviewData
  google_review_call : Nat → CallResult ReviewData
  anthropic_refine_call : Nat → CallResult String
  google_refine_call : Nat → CallResult String
  thought_id : Nat → String
  thought_time : Nat → String

/-- OrchestrationNodes._add_thought: append a ThoughtItem with a fresh id
and timestamp to state["thoughts"]. -/
def _add_thought (env : Env) (state : OrchestrationState) (text source : String) :
    OrchestrationState :=
  { state with thoughts := state.thoughts ++
      [{ id := env.thought_id state.thoughts.length,
         text := text,
         timestamp := env.thought_time state.thoughts.length,
         source := source }] }

/-- should_proceed_after_plan from orchestration_edges.py.  Returns the
label together with the state, which the no-plan branch mutates. -/
def should_proceed_after_plan (state : OrchestrationState) :
    String × OrchestrationState :=
  if state.status == "error" then
    ("error", state)
  else if !(optStrTruthy state.plan) then
    ("error", { state with
        status := "error",
        error_message := some "Planning phase did not produce a plan" })
  else
    ("generate", state)

/-- The `anthropic_ok` truthiness test inside should_proceed_after_generate:
output present, non-empty code, falsy error. -/
def anthropic_ok (state : OrchestrationState) : Bool :=
  match state.anthropic_output with
  | none => false
  | some o => !(o.code == "") && !(optStrTruthy o.error)

/-- The `google_ok` truthiness test inside should_proceed_after_generate. -/
def google_ok (state : OrchestrationState) : Bool :=
  match state.google_output with
  | none => false
  | some o => !(o.code == "") && !(optStrTruthy o.error)

/-- should_proceed_after_generate from orchestration_edges.py. -/
def should_proceed_after_generate (state : OrchestrationState) :
    String × OrchestrationState :=
  if state.status == "error" then
    ("error", state)
  else if !(anthropic_ok state) && !(google_ok state) then
    ("error", { state with
        status := "error",
        error_message := some "All code generation attempts failed" })
  else if state.enable_review then
    ("review", state)
  else
    ("complete", state)

/-- should_proceed_after_review from orchestration_edges.py (pure: never
assigns to state). -/
def should_proceed_after_review (state : OrchestrationState) :
    String × OrchestrationState :=
  if state.status == "error" then
    ("error", state)
  else if !state.needs_refinement then
    ("complete", state)
  else if state.refinement_iteration ≥ state.max_refinement_iterations then
    ("complete", state)
  else
    ("refine", state)

/-- should_proceed_after_refine from orchestration_edges.py (pure: never
assigns to state). -/
def should_proceed_after_refine (state : OrchestrationState) :
    String × OrchestrationState :=
  if state.status == "error" then
    ("error", state)
  else if state.refinement_iteration ≥ state.max_refinement_iterations then
    ("complete", state)
  else
    ("review", state)

/-- plan_node from orchestration_nodes.py.  The backend completion is the
only fallible operation in its `try`; on `.exn` the except-handler path
(status error, error_message, error thought) runs after the state changes
already made. -/
def plan_node (env : Env) (state : OrchestrationState) : OrchestrationState :=
  let s1 := { state with status := "planning", current_phase := "planning" }
  let s2 := _add_thought env s1
    "Starting planning phase - creating comprehensive implementation plan" "planner"
  match env.plan_completion with
  | .ok plan =>
    let s3 := { s2 with
        plan_content := some plan,
        plan_approved := false,
        status := "awaiting_approval",
        plan := some plan,
        implementation_strategy :=
          some ("Generate " ++ state.framework ++ " component following the approved plan") }
    _add_thought env s3
      ("Implementation plan created (" ++ toString (pyWordCount plan) ++
        " words) - awaiting user approval") "planner"
  | .exn e =>
    let s3 := { s2 with
        status := "error",
        error_message := some ("Planning failed: " ++ e) }
    _add_thought env s3 ("Planning error: " ++ e) "planner"

/-- Helper _generate_with_anthropic from orchestration_nodes.py: the helper's own
try/except records a failure in anthropic_output instead of raising. -/
def _generate_with_anthropic (env : Env) (state : OrchestrationState) :
    OrchestrationState :=
  let s1 := _add_thought env state
    "Anthropic team analyzing requirements with Claude Sonnet 4.5" "anthropic"
  match env.anthropic_generation with
  | .ok code =>
    let out : CodeOutput :=
      { code := code,
        model_used := "claude-sonnet-4-5-20250929",
        token_count := pyWordCount code,
        thoughts := [],
        error := none }
    let s2 := { s1 with anthropic_output := some out }
    _add_thought env s2
      ("Anthropic team generated " ++ toString code.length ++ " characters of code")
      "anthropic"
  | .exn e =>
    let out : CodeOutput :=
      { code := "",
        model_used := "claude-sonnet-4-5-20250929",
        token_count := 0,
        thoughts := [],
        error := some e }
    let s2 := { s1 with anthropic_output := some out }
    _add_thought env s2 ("Anthropic generation error: " ++ e) "anthropic"

/-- Helper _generate_with_google from orchestration_nodes.py. -/
def _generate_with_google (env : Env) (state : OrchestrationState) :
    OrchestrationState :=
  let s1 := _add_thought env state
    "Google team analyzing requirements with Gemini 2.0 Flash" "google"
  match env.google_generation with
  | .ok code =>
    let out : CodeOutput :=
      { code := code,
        model_used := "gemini-2.0-flash-exp",
        token_count := pyWordCount code,
        thoughts := [],
        error := none }
    let s2 := { s1 with google_output := some out }
    _add_thought env s2
      ("Google team generated " ++ toString code.length ++ " characters of code")
      "google"
  | .exn e =>
    let out : CodeOutput :=
      { code := "",
        model_used := "gemini-2.0-flash-exp",
        token_count := 0,
        thoughts := [],
        error := some e }
    let s2 := { s1 with google_output := some out }
    _add_thought env s2 ("Google generation error: " ++ e) "google"

/-- generate_node from orchestration_nodes.py.  Both the parallel and the
sequential branch run the two helpers to completion; the helpers catch
their own exceptions, so the node's outer except-handler has no modelled
trigger.  The helpers are run anthropic-first, the order of the source's
sequential branch. -/
def generate_node (env : Env) (state : OrchestrationState) : OrchestrationState :=
  let s1 := { state with status := "generating", current_phase := "generating" }
  let s2 := _add_thought env s1
    "Starting code generation phase - dispatching to Anthropic and Google teams" "planner"
  let s3 := _generate_with_anthropic env s2
  _generate_with_google env s3

/-- Truthiness of `output and not output["error"]`: the test used by
review_node to decide whether a backend's output gets reviewed. -/
def review_selected (o : Option CodeOutput) : Bool :=
  match o with
  | none => false
  | some out => !(optStrTruthy out.error)

/-- Truthiness of `review and review["has_issues"]`: the per-backend
needs-work test at the end of review_node. -/
def needs_work (r : Option ReviewResult) : Bool :=
  match r with
  | none => false
  | some rv => rv.has_issues

/-- Truthiness of `output and review and review["has_issues"]`: the test
used by refine_node to decide whether a backend gets refined. -/
def refine_selected (o : Option CodeOutput) (r : Option ReviewResult) : Bool :=
  match o, r with
  | some _, some rv => rv.has_issues
  | _, _ => false

/-- The permissive ReviewResult returned by _review_code's except-handler. -/
def default_review_on_failure : ReviewResult :=
  { has_issues := false, issues := [], suggestions := [], confidence := (0.5 : ℚ) }

/-- Helper _review_code from orchestration_nodes.py.  A `.ok` call is a completion
whose JSON parsed; the field reads use `.get` defaults.  A `.exn` call is a
completion failure or a parse failure; the except-handler then returns the
permissive default.  The opening thought precedes the fallible operations. -/
def _review_code (env : Env) (state : OrchestrationState)
    (call : CallResult ReviewData) (source : String) :
    OrchestrationState × ReviewResult :=
  let s1 := _add_thought env state
    ("Reviewing " ++ source ++ " output - analyzing code quality and correctness")
    "reviewer"
  match call with
  | .ok data =>
    let result : ReviewResult :=
      { has_issues := data.has_issues.getD false,
        issues := data.issues.getD [],
        suggestions := data.suggestions.getD [],
        confidence := data.confidence.getD (0.8 : ℚ) }
    let s2 :=

      if result.has_issues then
        _add_thought env s1
          (source ++ " review found " ++ toString result.issues.length ++ " issues")
          "reviewer"
      else
        _add_thought env s1 (source ++ " review passed - no critical issues found")
          "reviewer"
    (s2, result)
  | .exn _ =>
    (s1, default_review_on_failure)

/-- review_node from orchestration_nodes.py.  A backend is reviewed when its
output is present with a falsy error; the review round is indexed by the
current refinement_iteration.  needs_refinement is the OR of has_issues over
the review fields (which keep stale values for unreviewed backends). -/
def review_node (env : Env) (state : OrchestrationState) : OrchestrationState :=
  if !state.enable_review then
    let s1 := _add_thought env state "Review disabled - skipping review phase" "reviewer"
    { s1 with needs_refinement := false }
  else
    let s0 := { state with status := "reviewing", current_phase := "reviewing" }
    let s1 := _add_thought env s0
      "Starting review phase - analyzing generated code for quality and correctness"
      "reviewer"
    let round := state.refinement_iteration.toNat
    let s2 :=
      if review_selected state.anthropic_output then
        let p := _review_code env s1 (env.anthropic_review_call round) "anthropic"
        { p.1 with anthropic_review := some p.2 }
      else s1
    let s3 :=
      if review_selected state.google_output then
        let p := _review_code env s2 (env.google_review_call round) "google"
        { p.1 with google_review := some p.2 }
      else s2
    let needsRef := needs_work s3.anthropic_review || needs_work s3.google_review
    let s4 := { s3 with needs_refinement := needsRef }
    if s4.needs_refinement then
      _add_thought env s4
        "Review found issues that need refinement - proceeding to refinement phase"
        "reviewer"
    else
      _add_thought env s4 "Review complete - code meets quality standards" "reviewer"

/-- Helper _refine_code from orchestration_nodes.py: on success replace the chosen
backend's code and token_count in place; on failure only record a thought,
leaving the output unchanged (the helper catches its own exceptions). -/
def _refine_code (env : Env) (state : OrchestrationState)
    (call : CallResult String) (source : String) : OrchestrationState :=
  let s1 := _add_thought env state
    ("Refining " ++ source ++ " code based on review feedback") "refiner"
  match call with
  | .ok refined =>
    let s2 :=
      if source == "anthropic" then
        match s1.anthropic_output with
        | some o =>
          let o2 := { o with code := refined, token_count := pyWordCount refined }
          { s1 with anthropic_output := some o2 }
        | none => s1
      else if source == "google" then
        match s1.google_output with
        | some o =>
          let o2 := { o with code := refined, token_count := pyWordCount refined }
          { s1 with google_output := some o2 }
        | none => s1
      else s1
    _add_thought env s2 (source ++ " code refined successfully") "refiner"
  | .exn e =>
    _add_thought env s1 (source ++ " refinement error: " ++ e) "refiner"

/-- refine_node from orchestration_nodes.py: increments refinement_iteration
once before any work, then refines every backend whose output is present and
whose review flagged issues.  The refine calls of this visit are indexed by
the incremented iteration. -/
def refine_node (env : Env) (state : OrchestrationState) : OrchestrationState :=
  let s1 := { state with
      status := "refining",
      current_phase := "refining",
      refinement_iteration := state.refinement_iteration + 1 }
  let s2 := _add_thought env s1
    ("Starting refinement phase (iteration " ++ toString s1.refinement_iteration ++ ")")
    "refiner"
  let iterIdx := s1.refinement_iteration.toNat
  let s3 :=
    if refine_selected state.anthropic_output state.anthropic_review then
      _refine_code env s2 (env.anthropic_refine_call iterIdx) "anthropic"
    else s2
  let s4 :=
    if refine_selected state.google_output state.google_review then
      _refine_code env s3 (env.google_refine_call iterIdx) "google"
    else s3
  _add_thought env s4
    ("Refinement iteration " ++ toString s1.refinement_iteration ++ " complete")
    "refiner"

/-- complete_node from orchestration_nodes.py. -/
def complete_node (env : Env) (state : OrchestrationState) : OrchestrationState :=
  let s1 := { state with status := "complete", current_phase := "complete" }
  _add_thought env s1
    "Orchestration workflow complete - all phases finished successfully" "planner"

/-- OrchestrationWorkflow._error_node: stamps status and current_phase, and
never touches error_message. -/
def error_node (state : OrchestrationState) : OrchestrationState :=
  { state with status := "error", current_phase := "error" }

/-- The node names registered by OrchestrationWorkflow._build_graph via
add_node, in source order.  The clarify node defined in
orchestration_nodes.py is not among them. -/
def graph_node_names : List String :=
  ["plan", "generate", "review", "refine", "complete", "error"]

/-- The entry point set by OrchestrationWorkflow._build_graph
(`workflow.set_entry_point("plan")`). -/
def entry_point : String := "plan"

/-- The nodes of the compiled graph. -/
inductive NodeName where
  | plan
  | generate
  | review
  | refine
  | complete
  | error
deriving DecidableEq

/-- Dispatch of node name to node function, as registered by add_node. -/
def run_node (env : Env) : NodeName → OrchestrationState → OrchestrationState
  | .plan, s => plan_node env s
  | .generate, s => generate_node env s
  | .review, s => review_node env s
  | .refine, s => refine_node env s
  | .complete, s => complete_node env s
  | .error, s => error_node s

/-- The conditional-edge router attached to each non-terminal node by
_build_graph; `none` for the terminal nodes, whose outgoing edge goes
to END. -/
def route_after : NodeName → OrchestrationState → Option (String × OrchestrationState)
  | .plan, s => some (should_proceed_after_plan s)
  | .generate, s => some (should_proceed_after_generate s)
  | .review, s => some (should_proceed_after_review s)
  | .refine, s => some (should_proceed_after_refine s)
  | .complete, _ => none
  | .error, _ => none

/-- The label-to-target mapping of each add_conditional_edges call in
_build_graph. -/
def edge_target : NodeName → String → Option NodeName
  | .plan, "generate" => some .generate
  | .plan, "error" => some .error
  | .generate, "review" => some .review
  | .generate, "complete" => some .complete
  | .generate, "error" => some .error
  | .review, "refine" => some .refine
  | .review, "complete" => some .complete
  | .review, "error" => some .error
  | .refine, "review" => some .review
  | .refine, "complete" => some .complete
  | .refine, "error" => some .error
  | _, _ => none

/-- Routing of the driver after a node has produced state s1: apply the
node's router to (a fresh copy of) s1 and follow the labelled edge.  Only
the label is used: LangGraph applies node return values to its channels and
discards in-place writes made by a conditional-edge function, so the next
node receives s1 itself, not the router's mutated copy. -/
def route_and_map (n : NodeName) (s1 : OrchestrationState) :
    Option (NodeName × OrchestrationState) :=
  match route_after n s1 with
  | none => none
  | some (label, _) =>
    match edge_target n label with
    | none => none
    | some m => some (m, s1)

/-- One driver iteration: execute the current node, then route.  `none`
means the run ends after this node (terminal node, or no matching edge). -/
def workflow_step (env : Env) (n : NodeName) (s : OrchestrationState) :
    Option (NodeName × OrchestrationState) :=
  route_and_map n (run_node env n s)

/-- Fuelled driver loop modelling graph.ainvoke: starting at node n with
state s, repeatedly execute the node and follow the routed edge, recording
each executed node with its post-execution state. -/
def drive (env : Env) : Nat → NodeName → OrchestrationState →
    List (NodeName × OrchestrationState)
  | 0, _, _ => []
  | fuel + 1, n, s =>
    let s1 := run_node env n s
    match route_and_map n s1 with
    | none => [(n, s1)]
    | some (m, s2) => (n, s1) :: drive env fuel m s2

/-- OrchestrationWorkflow._create_initial_state. -/
def create_initial_state (cfg : OrchestrationConfig)
    (job_id brief framework : String) : OrchestrationState :=
  { job_id := job_id,
    brief := brief,
    framework := framework,
    clarifying_questions := [],
    clarifying_answers := [],
    skip_clarification := false,
    plan_content := none,
    plan_approved := false,
    plan_modified_at := none,
    plan := none,
    implementation_strategy := none,
    anthropic_output := none,
    google_output := none,
    anthropic_review := none,
    google_review := none,
    needs_refinement := false,
    refinement_iteration := 0,
    max_refinement_iterations := cfg.max_refinement_iterations,
    refinement_notes := none,
    status := "initialized",
    current_phase := "initialized",
    error_message := none,
    thoughts := [],
    enable_review := cfg.enable_review,
    review_strictness := cfg.review_strictness,
    parallel_generation := cfg.parallel_generation }

/-- OrchestrationWorkflow._default_config. -/
def default_config : OrchestrationConfig :=
  { max_refinement_iterations := 2,
    enable_review := true,
    review_strictness := "medium",
    parallel_generation := true,
    enable_checkpointing := true,
    checkpoint_interval := 30 }

/-- BALANCED_CONFIG from graphs/config.py. -/
def BALANCED_CONFIG : OrchestrationConfig :=
  { max_refinement_iterations := 1,
    enable_review := true,
    review_strictness := "medium",
    parallel_generation := true,
    enable_checkpointing := true,
    checkpoint_interval := 30 }

/-- The driver-level reachability relation: the pairs (current node,
current state) the loop passes through when started, as graph.ainvoke is,
at the entry point with the given initial state. -/
inductive Reachable (env : Env) (init : OrchestrationState) :
    NodeName → OrchestrationState → Prop where
  | start : Reachable env init .plan init
  | next {n s n' s'} : Reachable env init n s →
      workflow_step env n s = some (n', s') →
      Reachable env init n' s'

/-- Modelled from the spec's words (for the comparison in the generate
routing claim): an output is usable when it is present, has non-empty code,
and a null error field. -/
def spec_output_usable (o : Option CodeOutput) : Prop :=
  ∃ c, o = some c ∧ c.code ≠ "" ∧ c.error = none

/-- A benign ReviewData answer: parsed JSON reporting no issues. -/
def cleanReviewData : ReviewData :=
  { has_issues := some false, issues := none, suggestions := none, confidence := none }

/-- A concrete oracle in which every backend call succeeds and no review
flags issues. -/
def env0 : Env :=
  { plan_completion := .ok "plan the component",
    anthropic_generation := .ok "let x = 1",
    google_generation := .ok "const y = 2",
    anthropic_review_call := fun _ => .ok cleanReviewData,
    google_review_call := fun _ => .ok cleanReviewData,
    anthropic_refine_call := fun _ => .ok "refined anthropic code",
    google_refine_call := fun _ => .ok "refined google code",
    thought_id := fun k => "id-" ++ toString k,
    thought_time := fun k => "time-" ++ toString k }

/-- A ReviewData answer flagging issues. -/
def flaggedReviewData : ReviewData :=
  { has_issues := some true,
    issues := some ["missing prop types"],
    suggestions := some [],
    confidence := some (0.9 : ℚ) }

/-- Oracle for the bounded-refinement scenario: the first review flags
issues on the anthropic output only. -/
def env3 : Env :=
  { env0 with anthropic_review_call := fun _ => .ok flaggedReviewData }

/-- Oracle in which the anthropic generation call raises. -/
def envAnthFail : Env :=
  { env0 with anthropic_generation := .exn "rate limited" }

/-- Oracle in which the anthropic review response fails to parse. -/
def envParseFail : Env :=
  { env0 with anthropic_review_call := fun _ => .exn "Expecting value: line 1 column 1" }

/-- Oracle in which the planning completion returns the empty string, so
should_proceed_after_plan takes its no-plan branch. -/
def envEmptyPlan : Env :=
  { env0 with plan_completion := .ok "" }

/-- Oracle in which both generation completions raise, so
should_proceed_after_generate takes its all-failed branch. -/
def envAllGenFail : Env :=
  { env0 with
      anthropic_generation := .exn "anthropic unavailable",
      google_generation := .exn "google unavailable" }

/-- A fresh default-config state. -/
def st0 : OrchestrationState :=
  create_initial_state default_config "job-1" "a counter component" "react"

/-- A fresh BALANCED_CONFIG state (maxRefinementIterations = 1). -/
def init3 : OrchestrationState :=
  create_initial_state BALANCED_CONFIG "job-3" "a todo list component" "react"

/-- A state about to be routed after planning, with no plan produced. -/
def stNoPlan : OrchestrationState :=
  { st0 with status := "planning" }

/-- A state with both generation outputs recorded and no errors, ready for
review. -/
def stReviewable : OrchestrationState :=
  { st0 with
      status := "generating",
      anthropic_output := some
        { code := "let x = 1", model_used := "claude-sonnet-4-5-20250929",
          token_count := 4, thoughts := [], error := none },
      google_output := some
        { code := "const y = 2", model_used := "gemini-2.0-flash-exp",
          token_count := 4, thoughts := [], error := none } }

/-- A reviewed state in which only the anthropic output was flagged. -/
def stRefinable : OrchestrationState :=
  { stReviewable with
      status := "reviewing",
      anthropic_review := some
        { has_issues := true, issues := ["missing prop types"],
          suggestions := [], confidence := (0.9 : ℚ) },
      google_review := some
        { has_issues := false, issues := [], suggestions := [],
          confidence := (0.8 : ℚ) },
      needs_refinement := true,
      max_refinement_iterations := 1 }

/-- Invariant shape for the error claims: an error status is accompanied by
a present, non-empty error message. -/
def status_error_has_message (s : OrchestrationState) : Prop :=
  s.status = "error" → s.error_message ≠ none ∧ s.error_message ≠ some ""

/-- Invariant shape for the refinement-bound claims. -/
def iter_within_bound (s : OrchestrationState) : Prop :=
  s.refinement_iteration ≤ s.max_refinement_iterations

@[simp] theorem add_thought_iter (env : Env) (s : OrchestrationState) (t src : String) :
    (_add_thought env s t src).refinement_iteration = s.refinement_iteration := rfl

@[simp] theorem add_thought_max (env : Env) (s : OrchestrationState) (t src : String) :
    (_add_thought env s t src).max_refinement_iterations = s.max_refinement_iterations := rfl

@[simp] theorem add_thought_status (env : Env) (s : OrchestrationState) (t src : String) :
    (_add_thought env s t src).status = s.status := rfl

@[simp] theorem add_thought_error_message (env : Env) (s : OrchestrationState) (t src : String) :
    (_add_thought env s t src).error_message = s.error_message := rfl

@[simp] theorem add_thought_enable_review (env : Env) (s : OrchestrationState) (t src : String) :
    (_add_thought env s t src).enable_review = s.enable_review := rfl

@[simp] theorem add_thought_anthropic_output (env : Env) (s : OrchestrationState) (t src : String) :
    (_add_thought env s t src).anthropic_output = s.anthropic_output := rfl

@[simp] theorem add_thought_google_output (env : Env) (s : OrchestrationState) (t src : String) :
    (_add_thought env s t src).google_output = s.google_output := rfl

@[simp] theorem add_thought_anthropic_review (env : Env) (s : OrchestrationState) (t src : String) :
    (_add_thought env s t src).anthropic_review = s.anthropic_review := rfl

@[simp] theorem add_thought_google_review (env : Env) (s : OrchestrationState) (t src : String) :
    (_add_thought env s t src).google_review = s.google_review := rfl

@[simp] theorem add_thought_needs_refinement (env : Env) (s : OrchestrationState) (t src : String) :
    (_add_thought env s t src).needs_refinement = s.needs_refinement := rfl

@[simp] theorem add_thought_thoughts (env : Env) (s : OrchestrationState) (t src : String) :
    (_add_thought env s t src).thoughts = s.thoughts ++
      [{ id := env.thought_id s.thoughts.length,
         text := t,
         timestamp := env.thought_time s.thoughts.length,
         source := src }] := rfl

theorem append_ne_empty (p q : String) (h : p ≠ "") : p ++ q ≠ "" := by
  intro hpq
  apply h
  cases p with
  | mk pd =>
    cases q with
    | mk qd =>
      have hd : pd ++ qd = [] := congrArg String.data hpq
      have : pd = [] := (List.append_eq_nil.mp hd).1
      simp [this]

theorem review_route_pure (s : OrchestrationState) :
    (should_proceed_after_review s).2 = s := by
  unfold should_proceed_after_review
  repeat' split
  all_goals rfl

theorem refine_route_pure (s : OrchestrationState) :
    (should_proceed_after_refine s).2 = s := by
  unfold should_proceed_after_refine
  repeat' split
  all_goals rfl

theorem plan_route_cases (s : OrchestrationState) :
    (should_proceed_after_plan s).2 = s ∨
      ((should_proceed_after_plan s).1 = "error" ∧
        (should_proceed_after_plan s).2 =
          { s with status := "error",
                   error_message := some "Planning phase did not produce a plan" }) := by
  unfold should_proceed_after_plan
  repeat' split
  all_goals first
    | exact Or.inl rfl
    | exact Or.inr ⟨rfl, rfl⟩

theorem generate_route_cases (s : OrchestrationState) :
    (should_proceed_after_generate s).2 = s ∨
      ((should_proceed_after_generate s).1 = "error" ∧
        (should_proceed_after_generate s).2 =
          { s with status := "error",
                   error_message := some "All code generation attempts failed" }) := by
  unfold should_proceed_after_generate
  repeat' split
  all_goals first
    | exact Or.inl rfl
    | exact Or.inr ⟨rfl, rfl⟩

theorem plan_route_of_error (s : OrchestrationState) (h : s.status = "error") :
    should_proceed_after_plan s = ("error", s) := by
  unfold should_proceed_after_plan
  simp [h]

theorem generate_route_of_error (s : OrchestrationState) (h : s.status = "error") :
    should_proceed_after_generate s = ("error", s) := by
  unfold should_proceed_after_generate
  simp [h]

theorem review_route_of_error (s : OrchestrationState) (h : s.status = "error") :
    should_proceed_after_review s = ("error", s) := by
  unfold should_proceed_after_review
  simp [h]

theorem refine_route_of_error (s : OrchestrationState) (h : s.status = "error") :
    should_proceed_after_refine s = ("error", s) := by
  unfold should_proceed_after_refine
  simp [h]

/-- Claim C9: invoking any of the four routing functions twice in
succession (feeding the state returned by the first invocation to the
second, with no node execution in between) yields the same next-stage name
both times. -/
theorem C9_route_idempotent (s : OrchestrationState) :
    (should_proceed_after_plan (should_proceed_after_plan s).2).1 =
      (should_proceed_after_plan s).1 ∧
    (should_proceed_after_generate (should_proceed_after_generate s).2).1 =
      (should_proceed_after_generate s).1 ∧
    (should_proceed_after_review (should_proceed_after_review s).2).1 =
      (should_proceed_after_review s).1 ∧
    (should_proceed_after_refine (should_proceed_after_refine s).2).1 =
      (should_proceed_after_refine s).1 := by
  refine ⟨?_, ?_, ?_, ?_⟩
  · rcases plan_route_cases s with h | ⟨hl, hs⟩
    · rw [h]
    · rw [hs, hl, (plan_route_of_error _ rfl)]
  · rcases generate_route_cases s with h | ⟨hl, hs⟩
    · rw [h]
    · rw [hs, hl, (generate_route_of_error _ rfl)]
  · rw [review_route_pure]
  · rw [refine_route_pure]

/-- Claim C5 counterexample: should_proceed_after_plan is not pure.  On a
state in planning status with no plan, it mutates the state: status becomes
"error" and error_message is filled in. -/
theorem C5_counterexample :
    (should_proceed_after_plan stNoPlan).2 ≠ stNoPlan ∧
    ((should_proceed_after_plan stNoPlan).2).status = "error" ∧
    stNoPlan.status = "planning" ∧
    ((should_proceed_after_plan stNoPlan).2).error_message =
      some "Planning phase did not produce a plan" ∧
    stNoPlan.error_message = none := by
  decide

/-- Claim C5 amended: every routing function returns a next-stage name
computed from the state alone; should_proceed_after_review and
should_proceed_after_refine leave the state completely unchanged, while
should_proceed_after_plan and should_proceed_after_generate either leave it
unchanged or (exactly when they detect the failure themselves and return
"error") set status to "error" and fill error_message, touching nothing
else. -/
theorem C5_amended (s : OrchestrationState) :
    (should_proceed_after_review s).2 = s ∧
    (should_proceed_after_refine s).2 = s ∧
    ((should_proceed_after_plan s).2 = s ∨
      ((should_proceed_after_plan s).1 = "error" ∧
        (should_proceed_after_plan s).2 =
          { s with status := "error",
                   error_message := some "Planning phase did not produce a plan" })) ∧
    ((should_proceed_after_generate s).2 = s ∨
      ((should_proceed_after_generate s).1 = "error" ∧
        (should_proceed_after_generate s).2 =
          { s with status := "error",
                   error_message := some "All code generation attempts failed" })) :=
  ⟨review_route_pure s, refine_route_pure s, plan_route_cases s, generate_route_cases s⟩

theorem review_code_fst_frame (env : Env) (st : OrchestrationState)
    (call : CallResult ReviewData) (src : String) :
    ((_review_code env st call src).1).refinement_iteration = st.refinement_iteration ∧
    ((_review_code env st call src).1).max_refinement_iterations = st.max_refinement_iterations ∧
    ((_review_code env st call src).1).status = st.status ∧
    ((_review_code env st call src).1).error_message = st.error_message ∧
    ((_review_code env st call src).1).enable_review = st.enable_review ∧
    ((_review_code env st call src).1).anthropic_output = st.anthropic_output ∧
    ((_review_code env st call src).1).google_output = st.google_output ∧
    ((_review_code env st call src).1).anthropic_review = st.anthropic_review ∧
    ((_review_code env st call src).1).google_review = st.google_review := by
  cases call with
  | ok d =>
    unfold _review_code
    simp [apply_ite, ite_self]
  | exn e =>
    unfold _review_code
    simp

theorem refine_code_frame (env : Env) (st : OrchestrationState)
    (call : CallResult String) (src : String) :
    ((_refine_code env st call src)).refinement_iteration = st.refinement_iteration ∧
    ((_refine_code env st call src)).max_refinement_iterations = st.max_refinement_iterations ∧
    ((_refine_code env st call src)).status = st.status ∧
    ((_refine_code env st call src)).error_message = st.error_message ∧
    ((_refine_code env st call src)).enable_review = st.enable_review ∧
    ((_refine_code env st call src)).anthropic_review = st.anthropic_review ∧
    ((_refine_code env st call src)).google_review = st.google_review ∧
    ((_refine_code env st call src)).needs_refinement = st.needs_refinement := by
  cases call with
  | ok refined =>
    unfold _refine_code
    cases hA : st.anthropic_output <;> cases hG : st.google_output <;>
      (repeat' split) <;> simp_all
  | exn e =>
    unfold _refine_code
    simp

theorem refine_code_anthropic_keeps_google (env : Env) (st : OrchestrationState)
    (call : CallResult String) :
    (_refine_code env st call "anthropic").google_output = st.google_output := by
  cases call with
  | ok refined =>
    unfold _refine_code
    cases hA : st.anthropic_output <;> (repeat' split) <;> simp_all
  | exn e =>
    unfold _refine_code
    simp

theorem refine_code_google_keeps_anthropic (env : Env) (st : OrchestrationState)
    (call : CallResult String) :
    (_refine_code env st call "google").anthropic_output = st.anthropic_output := by
  cases call with
  | ok refined =>
    unfold _refine_code
    cases hG : st.google_output <;> (repeat' split) <;> simp_all
  | exn e =>
    unfold _refine_code
    simp

theorem plan_node_frame (env : Env) (s : OrchestrationState) :
    (plan_node env s).refinement_iteration = s.refinement_iteration ∧
    (plan_node env s).max_refinement_iterations = s.max_refinement_iterations ∧
    (plan_node env s).enable_review = s.enable_review ∧
    ((plan_node env s).status = "awaiting_approval" ∨
      ((plan_node env s).status = "error" ∧
        ∃ e, (plan_node env s).error_message = some ("Planning failed: " ++ e))) := by
  cases h : env.plan_completion with
  | ok p =>
    unfold plan_node
    rw [h]
    exact ⟨rfl, rfl, rfl, Or.inl rfl⟩
  | exn e =>
    unfold plan_node
    rw [h]
    exact ⟨rfl, rfl, rfl, Or.inr ⟨rfl, ⟨e, rfl⟩⟩⟩

theorem generate_anthropic_frame (env : Env) (s : OrchestrationState) :
    (_generate_with_anthropic env s).refinement_iteration = s.refinement_iteration ∧
    (_generate_with_anthropic env s).max_refinement_iterations = s.max_refinement_iterations ∧
    (_generate_with_anthropic env s).status = s.status ∧
    (_generate_with_anthropic env s).error_message = s.error_message ∧
    (_generate_with_anthropic env s).enable_review = s.enable_review ∧
    (_generate_with_anthropic env s).google_output = s.google_output ∧
    (_generate_with_anthropic env s).anthropic_review = s.anthropic_review ∧
    (_generate_with_anthropic env s).google_review = s.google_review := by
  cases h : env.anthropic_generation <;>
    (unfold _generate_with_anthropic; rw [h]; exact ⟨rfl, rfl, rfl, rfl, rfl, rfl, rfl, rfl⟩)

theorem generate_google_frame (env : Env) (s : OrchestrationState) :
    (_generate_with_google env s).refinement_iteration = s.refinement_iteration ∧
    (_generate_with_google env s).max_refinement_iterations = s.max_refinement_iterations ∧
    (_generate_with_google env s).status = s.status ∧
    (_generate_with_google env s).error_message = s.error_message ∧
    (_generate_with_google env s).enable_review = s.enable_review ∧
    (_generate_with_google env s).anthropic_output = s.anthropic_output ∧
    (_generate_with_google env s).anthropic_review = s.anthropic_review ∧
    (_generate_with_google env s).google_review = s.google_review := by
  cases h : env.google_generation <;>
    (unfold _generate_with_google; rw [h]; exact ⟨rfl, rfl, rfl, rfl, rfl, rfl, rfl, rfl⟩)

theorem generate_anthropic_output_shape (env : Env) (s : OrchestrationState) :
    (_generate_with_anthropic env s).anthropic_output =
      (match env.anthropic_generation with
        | .ok c => some
            { code := c, model_used := "claude-sonnet-4-5-20250929",
              token_count := pyWordCount c, thoughts := [], error := none }
        | .exn e => some
            { code := "", model_used := "claude-sonnet-4-5-20250929",
              token_count := 0, thoughts := [], error := some e }) := by
  cases h : env.anthropic_generation <;> (unfold _generate_with_anthropic; rw [h]; rfl)

theorem generate_google_output_shape (env : Env) (s : OrchestrationState) :
    (_generate_with_google env s).google_output =
      (match env.google_generation with
        | .ok c => some
            { code := c, model_used := "gemini-2.0-flash-exp",
              token_count := pyWordCount c, thoughts := [], error := none }
        | .exn e => some
            { code := "", model_used := "gemini-2.0-flash-exp",
              token_count := 0, thoughts := [], error := some e }) := by
  cases h : env.google_generation <;> (unfold _generate_with_google; rw [h]; rfl)

theorem generate_node_frame (env : Env) (s : OrchestrationState) :
    (generate_node env s).refinement_iteration = s.refinement_iteration ∧
    (generate_node env s).max_refinement_iterations = s.max_refinement_iterations ∧
    (generate_node env s).status = "generating" ∧
    (generate_node env s).error_message = s.error_message ∧
    (generate_node env s).enable_review = s.enable_review := by
  unfold generate_node
  obtain ⟨g1, g2, g3, g4, g5, _, _, _⟩ :=
    generate_google_frame env (_generate_with_anthropic env
      (_add_thought env { s with status := "generating", current_phase := "generating" }
        "Starting code generation phase - dispatching to Anthropic and Google teams"
        "planner"))
  obtain ⟨a1, a2, a3, a4, a5, _, _, _⟩ :=
    generate_anthropic_frame env
      (_add_thought env { s with status := "generating", current_phase := "generating" }
        "Starting code generation phase - dispatching to Anthropic and Google teams"
        "planner")
  refine ⟨?_, ?_, ?_, ?_, ?_⟩
  · rw [g1, a1]; rfl
  · rw [g2, a2]; rfl
  · rw [g3, a3]; rfl
  · rw [g4, a4]; rfl
  · rw [g5, a5]; rfl

theorem generate_node_outputs (env : Env) (s : OrchestrationState) :
    (generate_node env s).anthropic_output =
      (match env.anthropic_generation with
        | .ok c => some
            { code := c, model_used := "claude-sonnet-4-5-20250929",
              token_count := pyWordCount c, thoughts := [], error := none }
        | .exn e => some
            { code := "", model_used := "claude-sonnet-4-5-20250929",
              token_count := 0, thoughts := [], error := some e }) ∧
    (generate_node env s).google_output =
      (match env.google_generation with
        | .ok c => some
            { code := c, model_used := "gemini-2.0-flash-exp",
              token_count := pyWordCount c, thoughts := [], error := none }
        | .exn e => some
            { code := "", model_used := "gemini-2.0-flash-exp",
              token_count := 0, thoughts := [], error := some e }) := by
  unfold generate_node
  constructor
  · rw [(generate_google_frame env _).2.2.2.2.2.1]
    exact generate_anthropic_output_shape env _
  · exact generate_google_output_shape env _

set_option maxHeartbeats 1000000 in
set_option maxRecDepth 4000 in
theorem review_node_frame (env : Env) (s : OrchestrationState) :
    (review_node env s).refinement_iteration = s.refinement_iteration ∧
    (review_node env s).max_refinement_iterations = s.max_refinement_iterations ∧
    (review_node env s).error_message = s.error_message ∧
    (review_node env s).enable_review = s.enable_review ∧
    ((review_node env s).status = s.status ∨ (review_node env s).status = "reviewing") := by
  cases hr : s.enable_review with
  | false =>
    unfold review_node
    simp [hr]
  | true =>
    unfold review_node
    cases hA : review_selected s.anthropic_output <;>
      cases hG : review_selected s.google_output <;>
        simp [hr, hA, hG, apply_ite, ite_self, review_code_fst_frame]

theorem refine_node_frame (env : Env) (s : OrchestrationState) :
    (refine_node env s).refinement_iteration = s.refinement_iteration + 1 ∧
    (refine_node env s).max_refinement_iterations = s.max_refinement_iterations ∧
    (refine_node env s).error_message = s.error_message ∧
    (refine_node env s).enable_review = s.enable_review ∧
    (refine_node env s).status = "refining" := by
  unfold refine_node
  cases hA : refine_selected s.anthropic_output s.anthropic_review <;>
    cases hG : refine_selected s.google_output s.google_review <;>
      simp [hA, hG, refine_code_frame]

theorem complete_node_frame (env : Env) (s : OrchestrationState) :
    (complete_node env s).refinement_iteration = s.refinement_iteration ∧
    (complete_node env s).max_refinement_iterations = s.max_refinement_iterations ∧
    (complete_node env s).error_message = s.error_message ∧
    (complete_node env s).status = "complete" :=
  ⟨rfl, rfl, rfl, rfl⟩

theorem error_node_frame (s : OrchestrationState) :
    (error_node s).refinement_iteration = s.refinement_iteration ∧
    (error_node s).max_refinement_iterations = s.max_refinement_iterations ∧
    (error_node s).error_message = s.error_message ∧
    (error_node s).status = "error" :=
  ⟨rfl, rfl, rfl, rfl⟩

theorem run_node_iter (env : Env) (n : NodeName) (s : OrchestrationState) :
    (run_node env n s).refinement_iteration =
      (if n = NodeName.refine then s.refinement_iteration + 1
       else s.refinement_iteration) := by
  cases n with
  | plan => simpa [run_node] using (plan_node_frame env s).1
  | generate => simpa [run_node] using (generate_node_frame env s).1
  | review => simpa [run_node] using (review_node_frame env s).1
  | refine => simpa [run_node] using (refine_node_frame env s).1
  | complete => simpa [run_node] using (complete_node_frame env s).1
  | error => simpa [run_node] using (error_node_frame s).1

theorem run_node_max (env : Env) (n : NodeName) (s : OrchestrationState) :
    (run_node env n s).max_refinement_iterations = s.max_refinement_iterations := by
  cases n with
  | plan => simpa [run_node] using (plan_node_frame env s).2.1
  | generate => simpa [run_node] using (generate_node_frame env s).2.1
  | review => simpa [run_node] using (review_node_frame env s).2.1
  | refine => simpa [run_node] using (refine_node_frame env s).2.1
  | complete => simpa [run_node] using (complete_node_frame env s).2.1
  | error => simpa [run_node] using (error_node_frame s).2.1

theorem route_iter_max (s : OrchestrationState) (n : NodeName) (lbl : String)
    (s' : OrchestrationState) (h : route_after n s = some (lbl, s')) :
    s'.refinement_iteration = s.refinement_iteration ∧
    s'.max_refinement_iterations = s.max_refinement_iterations := by
  cases n with
  | plan =>
    simp only [route_after, Option.some.injEq] at h
    have h2 : (should_proceed_after_plan s).2 = s' := by rw [h]
    rcases plan_route_cases s with hc | ⟨_, hc⟩ <;>
      (rw [hc] at h2; rw [← h2]; exact ⟨rfl, rfl⟩)
  | generate =>
    simp only [route_after, Option.some.injEq] at h
    have h2 : (should_proceed_after_generate s).2 = s' := by rw [h]
    rcases generate_route_cases s with hc | ⟨_, hc⟩ <;>
      (rw [hc] at h2; rw [← h2]; exact ⟨rfl, rfl⟩)
  | review =>
    simp only [route_after, Option.some.injEq] at h
    have h2 : (should_proceed_after_review s).2 = s' := by rw [h]
    rw [review_route_pure] at h2
    rw [← h2]
    exact ⟨rfl, rfl⟩
  | refine =>
    simp only [route_after, Option.some.injEq] at h
    have h2 : (should_proceed_after_refine s).2 = s' := by rw [h]
    rw [refine_route_pure] at h2
    rw [← h2]
    exact ⟨rfl, rfl⟩
  | complete => exact absurd h (by simp [route_after])
  | error => exact absurd h (by simp [route_after])

theorem review_route_refine_bound (s : OrchestrationState)
    (h : (should_proceed_after_review s).1 = "refine") :
    s.refinement_iteration < s.max_refinement_iterations := by
  unfold should_proceed_after_review at h
  split at h
  · simp at h
  · split at h
    · simp at h
    · split at h
      · simp at h
      · omega

theorem edge_target_refine (n : NodeName) (lbl : String)
    (h : edge_target n lbl = some NodeName.refine) :
    n = NodeName.review ∧ lbl = "refine" := by
  cases n <;> unfold edge_target at h <;> (try split at h) <;> simp_all

theorem step_state (env : Env) (n : NodeName) (s : OrchestrationState)
    (n' : NodeName) (s' : OrchestrationState)
    (hstep : workflow_step env n s = some (n', s')) :
    s' = run_node env n s := by
  unfold workflow_step route_and_map at hstep
  cases hra : route_after n (run_node env n s) with
  | none =>
    rw [hra] at hstep
    simp at hstep
  | some p =>
    obtain ⟨lbl, s2⟩ := p
    rw [hra] at hstep
    dsimp only at hstep
    cases het : edge_target n lbl with
    | none =>
      rw [het] at hstep
      simp at hstep
    | some m =>
      rw [het] at hstep
      simp only [Option.some.injEq, Prod.mk.injEq] at hstep
      exact hstep.2.symm

theorem step_decompose (env : Env) (n : NodeName) (s : OrchestrationState)
    (n' : NodeName) (s' : OrchestrationState)
    (hstep : workflow_step env n s = some (n', s')) :
    s'.refinement_iteration = (run_node env n s).refinement_iteration ∧
    s'.max_refinement_iterations = (run_node env n s).max_refinement_iterations ∧
    (n' = NodeName.refine →
      (run_node env n s).refinement_iteration <
        (run_node env n s).max_refinement_iterations) := by
  have hss := step_state env n s n' s' hstep
  subst hss
  unfold workflow_step route_and_map at hstep
  cases hra : route_after n (run_node env n s) with
  | none =>
    rw [hra] at hstep
    simp at hstep
  | some p =>
    obtain ⟨lbl, s2⟩ := p
    rw [hra] at hstep
    dsimp only at hstep
    cases het : edge_target n lbl with
    | none =>
      rw [het] at hstep
      simp at hstep
    | some m =>
      rw [het] at hstep
      simp only [Option.some.injEq, Prod.mk.injEq] at hstep
      obtain ⟨hm, _⟩ := hstep
      refine ⟨rfl, rfl, ?_⟩
      intro hnr
      have hright : edge_target n lbl = some NodeName.refine := by
        rw [het, hm, hnr]
      obtain ⟨hnrev, hlbl⟩ := edge_target_refine n lbl hright
      subst hnrev
      have hra2 : should_proceed_after_review (run_node env NodeName.review s) = (lbl, s2) := by
        simpa [route_after] using hra
      have hlab : (should_proceed_after_review (run_node env NodeName.review s)).1 = "refine" := by
        rw [hra2, hlbl]
      exact review_route_refine_bound _ hlab

theorem step_iter_mono (env : Env) (n : NodeName) (s : OrchestrationState)
    (n' : NodeName) (s' : OrchestrationState)
    (hstep : workflow_step env n s = some (n', s')) :
    s.refinement_iteration ≤ s'.refinement_iteration := by
  obtain ⟨hi, _, _⟩ := step_decompose env n s n' s' hstep
  rw [hi, run_node_iter]
  split <;> omega

theorem reachable_iter_invariant (env : Env) (cfg : OrchestrationConfig)
    (j b f : String) (hmax : 0 ≤ cfg.max_refinement_iterations)
    (n : NodeName) (s : OrchestrationState)
    (hr : Reachable env (create_initial_state cfg j b f) n s) :
    iter_within_bound s ∧
      (n = NodeName.refine →
        s.refinement_iteration < s.max_refinement_iterations) := by
  induction hr with
  | start =>
    constructor
    · show (0 : Int) ≤ cfg.max_refinement_iterations
      exact hmax
    · intro h
      exact absurd h (by simp)
  | next hr0 hstep ih =>
    obtain ⟨hi, hx, hb⟩ := step_decompose env _ _ _ _ hstep
    constructor
    · show _ ≤ _
      rw [hi, hx, run_node_iter, run_node_max]
      split
      · rename_i ht
        have h2 := ih.2 ht
        omega
      · exact ih.1
    · intro hn
      rw [hi, hx]
      exact hb hn

/-- Claim C1: refinement_iteration never exceeds max_refinement_iterations
on any reachable workflow state (given the configured maximum is
non-negative, as all shipped presets are), no node execution or driver step
decreases it, should_proceed_after_review returns "refine" only when the
iteration count is strictly below the maximum, and refine_node increments
the count by exactly one. -/
theorem C1_refinement_bound (env : Env) (cfg : OrchestrationConfig)
    (j b f : String) (hmax : 0 ≤ cfg.max_refinement_iterations) :
    (∀ s, (should_proceed_after_review s).1 = "refine" →
        s.refinement_iteration < s.max_refinement_iterations) ∧
    (∀ s, (refine_node env s).refinement_iteration = s.refinement_iteration + 1) ∧
    (∀ n s, s.refinement_iteration ≤ (run_node env n s).refinement_iteration) ∧
    (∀ n s n' s', workflow_step env n s = some (n', s') →
        s.refinement_iteration ≤ s'.refinement_iteration) ∧
    (∀ n s, Reachable env (create_initial_state cfg j b f) n s →
        s.refinement_iteration ≤ s.max_refinement_iterations ∧
        (run_node env n s).refinement_iteration ≤
          (run_node env n s).max_refinement_iterations) := by
  refine ⟨?_, ?_, ?_, ?_, ?_⟩
  · exact fun s h => review_route_refine_bound s h
  · exact fun s => (refine_node_frame env s).1
  · intro n s
    rw [run_node_iter]
    split <;> omega
  · exact fun n s n' s' h => step_iter_mono env n s n' s' h
  · intro n s hr
    obtain ⟨h1, h2⟩ := reachable_iter_invariant env cfg j b f hmax n s hr
    refine ⟨h1, ?_⟩
    rw [run_node_iter, run_node_max]
    split
    · rename_i ht
      have := h2 ht
      omega
    · exact h1

/-- Witness for C1 at a concrete oracle, configuration and state. -/
theorem C1_refinement_bound_witness :
    (refine_node env0 st0).refinement_iteration = st0.refinement_iteration + 1 :=
  (C1_refinement_bound env0 default_config "job-1" "a counter component" "react"
      (by decide)).2.1 st0

theorem some_prefixed_msg_ok (p e : String) (hp : p ≠ "") :
    some (p ++ e) ≠ (none : Option String) ∧ some (p ++ e) ≠ some "" := by
  constructor
  · simp
  · intro h
    exact append_ne_empty p e hp (Option.some.inj h)

theorem plan_route_q (s : OrchestrationState) (hq : status_error_has_message s) :
    status_error_has_message ((should_proceed_after_plan s).2) := by
  rcases plan_route_cases s with h | ⟨_, h⟩
  · rw [h]; exact hq
  · rw [h]
    intro _
    constructor
    · simp
    · simp

theorem generate_route_q (s : OrchestrationState) (hq : status_error_has_message s) :
    status_error_has_message ((should_proceed_after_generate s).2) := by
  rcases generate_route_cases s with h | ⟨_, h⟩
  · rw [h]; exact hq
  · rw [h]
    intro _
    constructor
    · simp
    · simp

theorem plan_route_label_error (s : OrchestrationState)
    (h : (should_proceed_after_plan s).1 = "error") :
    ((should_proceed_after_plan s).2).status = "error" := by
  cases hc : s.status == "error" with
  | true =>
    rw [plan_route_of_error s (eq_of_beq hc)]
    exact eq_of_beq hc
  | false =>
    cases hp : optStrTruthy s.plan with
    | false => simp [should_proceed_after_plan, hc, hp]
    | true => simp [should_proceed_after_plan, hc, hp] at h

theorem generate_route_label_error (s : OrchestrationState)
    (h : (should_proceed_after_generate s).1 = "error") :
    ((should_proceed_after_generate s).2).status = "error" := by
  cases hc : s.status == "error" with
  | true =>
    rw [generate_route_of_error s (eq_of_beq hc)]
    exact eq_of_beq hc
  | false =>
    cases ha : anthropic_ok s with
    | false =>
      cases hg : google_ok s with
      | false => simp [should_proceed_after_generate, hc, ha, hg]
      | true =>
        cases hr : s.enable_review with
        | true => simp [should_proceed_after_generate, hc, ha, hg, hr] at h
        | false => simp [should_proceed_after_generate, hc, ha, hg, hr] at h
    | true =>
      cases hr : s.enable_review with
      | true => simp [should_proceed_after_generate, hc, ha, hr] at h
      | false => simp [should_proceed_after_generate, hc, ha, hr] at h

theorem review_route_label_error (s : OrchestrationState)
    (h : (should_proceed_after_review s).1 = "error") :
    ((should_proceed_after_review s).2).status = "error" := by
  rw [review_route_pure]
  unfold should_proceed_after_review at h
  split at h
  · rename_i hc
    exact eq_of_beq hc
  · split at h
    · simp at h
    · split at h
      · simp at h
      · simp at h

theorem refine_route_label_error (s : OrchestrationState)
    (h : (should_proceed_after_refine s).1 = "error") :
    ((should_proceed_after_refine s).2).status = "error" := by
  rw [refine_route_pure]
  unfold should_proceed_after_refine at h
  split at h
  · rename_i hc
    exact eq_of_beq hc
  · split at h
    · simp at h
    · simp at h

theorem run_node_q (env : Env) (n : NodeName) (s : OrchestrationState)
    (hq : status_error_has_message s)
    (he : n = NodeName.error → s.status = "error") :
    status_error_has_message (run_node env n s) := by
  cases n with
  | plan =>
    show status_error_has_message (plan_node env s)
    obtain ⟨_, _, _, hst⟩ := plan_node_frame env s
    rcases hst with h | ⟨_, e, hm⟩
    · intro hs
      rw [h] at hs
      simp at hs
    · intro _
      rw [hm]
      exact some_prefixed_msg_ok "Planning failed: " e (by decide)
  | generate =>
    show status_error_has_message (generate_node env s)
    intro hs
    rw [(generate_node_frame env s).2.2.1] at hs
    simp at hs
  | review =>
    show status_error_has_message (review_node env s)
    obtain ⟨_, _, hmsg, _, hst⟩ := review_node_frame env s
    intro hs
    rw [hmsg]
    rcases hst with h | h
    · rw [h] at hs
      exact hq hs
    · rw [h] at hs
      simp at hs
  | refine =>
    show status_error_has_message (refine_node env s)
    intro hs
    rw [(refine_node_frame env s).2.2.2.2] at hs
    simp at hs
  | complete =>
    show status_error_has_message (complete_node env s)
    intro hs
    rw [(complete_node_frame env s).2.2.2] at hs
    simp at hs
  | error =>
    show status_error_has_message (error_node s)
    intro _
    rw [(error_node_frame s).2.2.1]
    exact hq (he rfl)

theorem edge_target_error (n : NodeName) (lbl : String)
    (h : edge_target n lbl = some NodeName.error) : lbl = "error" := by
  cases n <;> unfold edge_target at h <;> (try split at h) <;> simp_all

/-- Claim C6 fails on the code: when a router itself detects the failure
(empty plan produced, or all generation attempts failed), its in-place
error_message assignment lands on a discarded copy of the state — the
driver applies only node return values to its channels and drops writes
made inside a conditional-edge function — so the run terminates at the
error node with status "error" while error_message is still None.  This
theorem evaluates the two failing runs: planning yields an empty plan, and
both generation calls raise. -/
theorem C6_error_without_message :
    ((drive envEmptyPlan 10 NodeName.plan st0).map Prod.fst) =
      [NodeName.plan, NodeName.error] ∧
    ((drive envEmptyPlan 10 NodeName.plan st0).getLast?).map
      (fun p => p.2.status) = some "error" ∧
    ((drive envEmptyPlan 10 NodeName.plan st0).getLast?).map
      (fun p => p.2.error_message) = some none ∧
    ((drive envAllGenFail 10 NodeName.plan st0).map Prod.fst) =
      [NodeName.plan, NodeName.generate, NodeName.error] ∧
    ((drive envAllGenFail 10 NodeName.plan st0).getLast?).map
      (fun p => p.2.status) = some "error" ∧
    ((drive envAllGenFail 10 NodeName.plan st0).getLast?).map
      (fun p => p.2.error_message) = some none := by
  decide


theorem run_node_no_clarify (env : Env) (n : NodeName) (s : OrchestrationState)
    (h1 : s.status ≠ "clarifying") (h2 : s.status ≠ "awaiting_answers") :
    (run_node env n s).status ≠ "clarifying" ∧
    (run_node env n s).status ≠ "awaiting_answers" := by
  cases n with
  | plan =>
    show (plan_node env s).status ≠ "clarifying" ∧
      (plan_node env s).status ≠ "awaiting_answers"
    rcases (plan_node_frame env s).2.2.2 with h | ⟨h, _⟩ <;>
      (rw [h]; exact ⟨by decide, by decide⟩)
  | generate =>
    show (generate_node env s).status ≠ _ ∧ (generate_node env s).status ≠ _
    rw [(generate_node_frame env s).2.2.1]
    exact ⟨by decide, by decide⟩
  | review =>
    show (review_node env s).status ≠ _ ∧ (review_node env s).status ≠ _
    rcases (review_node_frame env s).2.2.2.2 with h | h <;> rw [h]
    · exact ⟨h1, h2⟩
    · exact ⟨by decide, by decide⟩
  | refine =>
    show (refine_node env s).status ≠ _ ∧ (refine_node env s).status ≠ _
    rw [(refine_node_frame env s).2.2.2.2]
    exact ⟨by decide, by decide⟩
  | complete =>
    show (complete_node env s).status ≠ _ ∧ (complete_node env s).status ≠ _
    rw [(complete_node_frame env s).2.2.2]
    exact ⟨by decide, by decide⟩
  | error =>
    show (error_node s).status ≠ _ ∧ (error_node s).status ≠ _
    rw [(error_node_frame s).2.2.2]
    exact ⟨by decide, by decide⟩

theorem route_no_clarify (n : NodeName) (lbl : String)
    (s1 s2 : OrchestrationState) (h : route_after n s1 = some (lbl, s2))
    (h1 : s1.status ≠ "clarifying") (h2 : s1.status ≠ "awaiting_answers") :
    s2.status ≠ "clarifying" ∧ s2.status ≠ "awaiting_answers" := by
  cases n with
  | plan =>
    simp only [route_after, Option.some.injEq] at h
    have hs : (should_proceed_after_plan s1).2 = s2 := by rw [h]
    rcases plan_route_cases s1 with hc | ⟨_, hc⟩ <;> rw [hc] at hs <;> rw [← hs]
    · exact ⟨h1, h2⟩
    · exact ⟨by simp, by simp⟩
  | generate =>
    simp only [route_after, Option.some.injEq] at h
    have hs : (should_proceed_after_generate s1).2 = s2 := by rw [h]
    rcases generate_route_cases s1 with hc | ⟨_, hc⟩ <;> rw [hc] at hs <;> rw [← hs]
    · exact ⟨h1, h2⟩
    · exact ⟨by simp, by simp⟩
  | review =>
    simp only [route_after, Option.some.injEq] at h
    have hs : (should_proceed_after_review s1).2 = s2 := by rw [h]
    rw [review_route_pure] at hs
    rw [← hs]
    exact ⟨h1, h2⟩
  | refine =>
    simp only [route_after, Option.some.injEq] at h
    have hs : (should_proceed_after_refine s1).2 = s2 := by rw [h]
    rw [refine_route_pure] at hs
    rw [← hs]
    exact ⟨h1, h2⟩
  | complete => simp [route_after] at h
  | error => simp [route_after] at h

theorem reachable_no_clarify (env : Env) (cfg : OrchestrationConfig)
    (j b f : String) (n : NodeName) (s : OrchestrationState)
    (hr : Reachable env (create_initial_state cfg j b f) n s) :
    s.status ≠ "clarifying" ∧ s.status ≠ "awaiting_answers" := by
  induction hr with
  | start => exact ⟨by simp [create_initial_state], by simp [create_initial_state]⟩
  | next hr0 hstep ih =>
    rename_i n1 s1 n2 s2
    have hss := step_state env n1 s1 n2 s2 hstep
    subst hss
    exact run_node_no_clarify env n1 s1 ih.1 ih.2

theorem drive_starts_at_entry (env : Env) (fuel : Nat) (n : NodeName)
    (s : OrchestrationState) :
    ((drive env (fuel + 1) n s).map Prod.fst).head? = some n := by
  unfold drive
  dsimp only
  cases h : route_and_map n (run_node env n s) with
  | none => simp
  | some p =>
    obtain ⟨m, s2⟩ := p
    simp

/-- Claim C4 counterexample: on a fresh default-config job the first node
the driver executes is the plan node; no clarify node is registered in the
compiled graph, the entry point is "plan", and no state of the run ever
carries status "clarifying" or "awaiting_answers". -/
theorem C4_counterexample :
    entry_point ≠ "clarify" ∧
    graph_node_names.contains "clarify" = false ∧
    ((drive env0 10 NodeName.plan st0).map Prod.fst).head? = some NodeName.plan ∧
    ((drive env0 10 NodeName.plan st0).map Prod.fst) =
      [NodeName.plan, NodeName.generate, NodeName.review, NodeName.complete] ∧
    ((drive env0 10 NodeName.plan st0).map (fun p => p.2.status)).contains
      "clarifying" = false ∧
    ((drive env0 10 NodeName.plan st0).map (fun p => p.2.status)).contains
      "awaiting_answers" = false := by
  decide

/-- Claim C4 amended: the compiled graph's entry point is the plan node and
no clarify node is wired in, so every workflow run starts by executing plan
and no reachable state ever has status "clarifying" or "awaiting_answers":
the clarify phase described alongside the state schema is not part of this
workflow. -/
theorem C4_amended (env : Env) (cfg : OrchestrationConfig) (j b f : String) :
    entry_point = "plan" ∧
    graph_node_names.contains "clarify" = false ∧
    (∀ fuel s, ((drive env (fuel + 1) NodeName.plan s).map Prod.fst).head? =
        some NodeName.plan) ∧
    (∀ n s, Reachable env (create_initial_state cfg j b f) n s →
        (s.status ≠ "clarifying" ∧ s.status ≠ "awaiting_answers") ∧
        ((run_node env n s).status ≠ "clarifying" ∧
          (run_node env n s).status ≠ "awaiting_answers")) := by
  refine ⟨rfl, by decide, ?_, ?_⟩
  · intro fuel s
    exact drive_starts_at_entry env fuel NodeName.plan s
  · intro n s hr
    obtain ⟨h1, h2⟩ := reachable_no_clarify env cfg j b f n s hr
    exact ⟨⟨h1, h2⟩, run_node_no_clarify env n s h1 h2⟩

/-- Witness for C4 amended at a concrete oracle, configuration and fresh
state. -/
theorem C4_amended_witness :
    st0.status ≠ "clarifying" ∧ st0.status ≠ "awaiting_answers" :=
  (((C4_amended env0 default_config "job-1" "a counter component" "react").2.2.2
      NodeName.plan st0 Reachable.start)).1

theorem refine_code_anthropic_output (env : Env) (st : OrchestrationState)
    (c : String) (o : CodeOutput) (ho : st.anthropic_output = some o) :
    (_refine_code env st (CallResult.ok c) "anthropic").anthropic_output =
      some { o with code := c, token_count := pyWordCount c } := by
  unfold _refine_code
  simp [ho]

theorem refine_code_google_output (env : Env) (st : OrchestrationState)
    (c : String) (o : CodeOutput) (ho : st.google_output = some o) :
    (_refine_code env st (CallResult.ok c) "google").google_output =
      some { o with code := c, token_count := pyWordCount c } := by
  unfold _refine_code
  simp [ho]

/-- Claim C3 counterexample: a BALANCED run (maxRefinementIterations = 1)
whose first review flags only the anthropic output performs exactly one
review pass in total: after the refine pass the driver routes directly to
complete, with no second review.  The refine pass touches only the
anthropic code; the google output keeps its generated code. -/
theorem C3_counterexample :
    ((drive env3 10 NodeName.plan init3).map Prod.fst) =
      [NodeName.plan, NodeName.generate, NodeName.review, NodeName.refine,
       NodeName.complete] ∧
    (((drive env3 10 NodeName.plan init3).map Prod.fst).count NodeName.review) = 1 ∧
    ((drive env3 10 NodeName.plan init3).getLast?).map (fun p => p.2.status) =
      some "complete" ∧
    ((drive env3 10 NodeName.plan init3).getLast?).map
        (fun p => p.2.google_output.map (fun o => o.code)) =
      some (some "const y = 2") ∧
    ((drive env3 10 NodeName.plan init3).getLast?).map
        (fun p => p.2.anthropic_output.map (fun o => o.code)) =
      some (some "refined anthropic code") ∧
    ((drive env3 10 NodeName.plan init3).getLast?).map
        (fun p => p.2.refinement_iteration) = some 1 := by
  decide

/-- Claim C3 amended: with max_refinement_iterations = 1 and a review that
flags issues for exactly one backend X, exactly one refine pass occurs and
modifies only X's code output; afterwards should_proceed_after_refine
routes directly to complete (no second review pass), because the iteration
cap is reached, and the complete node stamps status "complete". -/
theorem C3_amended (env : Env) (s : OrchestrationState)
    (hmax : s.max_refinement_iterations = 1)
    (hiter : s.refinement_iteration = 0) :
    (refine_selected s.anthropic_output s.anthropic_review = true →
      refine_selected s.google_output s.google_review = false →
      (refine_node env s).google_output = s.google_output ∧
      (refine_node env s).refinement_iteration = 1 ∧
      should_proceed_after_refine (refine_node env s) =
        ("complete", refine_node env s) ∧
      (run_node env NodeName.complete (refine_node env s)).status = "complete" ∧
      (∀ c o, env.anthropic_refine_call 1 = CallResult.ok c →
        s.anthropic_output = some o →
        (refine_node env s).anthropic_output =
          some { o with code := c, token_count := pyWordCount c })) ∧
    (refine_selected s.google_output s.google_review = true →
      refine_selected s.anthropic_output s.anthropic_review = false →
      (refine_node env s).anthropic_output = s.anthropic_output ∧
      (refine_node env s).refinement_iteration = 1 ∧
      should_proceed_after_refine (refine_node env s) =
        ("complete", refine_node env s) ∧
      (run_node env NodeName.complete (refine_node env s)).status = "complete" ∧
      (∀ c o, env.google_refine_call 1 = CallResult.ok c →
        s.google_output = some o →
        (refine_node env s).google_output =
          some { o with code := c, token_count := pyWordCount c })) := by
  have hit : (refine_node env s).refinement_iteration = 1 := by
    rw [(refine_node_frame env s).1, hiter]
    norm_num
  have hroute : should_proceed_after_refine (refine_node env s) =
      ("complete", refine_node env s) := by
    unfold should_proceed_after_refine
    rw [(refine_node_frame env s).2.2.2.2]
    rw [hit, (refine_node_frame env s).2.1, hmax]
    simp
  have hcomp : (run_node env NodeName.complete (refine_node env s)).status =
      "complete" := (complete_node_frame env _).2.2.2
  constructor
  · intro hA hG
    refine ⟨?_, hit, hroute, hcomp, ?_⟩
    · unfold refine_node
      simp [hA, hG, refine_code_anthropic_keeps_google]
    · intro c o hc ho
      unfold refine_node
      simp only [hA, hG, if_true, if_false, Bool.false_eq_true]
      rw [add_thought_anthropic_output]
      rw [hiter]
      norm_num
      rw [hc]
      rw [refine_code_anthropic_output env _ c o (by simp [ho])]
  · intro hG hA
    refine ⟨?_, hit, hroute, hcomp, ?_⟩
    · unfold refine_node
      simp [hA, hG, refine_code_google_keeps_anthropic]
    · intro c o hc ho
      unfold refine_node
      simp only [hA, hG, if_true, if_false, Bool.false_eq_true]
      rw [add_thought_google_output]
      rw [hiter]
      norm_num
      rw [hc]
      rw [refine_code_google_output env _ c o (by simp [ho])]

/-- Witness for C3 amended at a concrete oracle and reviewed state. -/
theorem C3_amended_witness :
    (refine_node env3 stRefinable).google_output = stRefinable.google_output ∧
    (refine_node env3 stRefinable).refinement_iteration = 1 :=
  let h := (C3_amended env3 stRefinable (by decide) (by decide)).1
    (by decide) (by decide)
  ⟨h.1, h.2.1⟩

theorem anthropic_ok_iff_usable (env : Env) (s : OrchestrationState) :
    anthropic_ok (generate_node env s) = true ↔
      spec_output_usable (generate_node env s).anthropic_output := by
  obtain ⟨hA, _⟩ := generate_node_outputs env s
  unfold anthropic_ok
  rw [hA]
  cases henv : env.anthropic_generation with
  | ok c => simp [spec_output_usable, optStrTruthy]
  | exn e => simp [spec_output_usable, optStrTruthy]

theorem google_ok_iff_usable (env : Env) (s : OrchestrationState) :
    google_ok (generate_node env s) = true ↔
      spec_output_usable (generate_node env s).google_output := by
  obtain ⟨_, hG⟩ := generate_node_outputs env s
  unfold google_ok
  rw [hG]
  cases henv : env.google_generation with
  | ok c => simp [spec_output_usable, optStrTruthy]
  | exn e => simp [spec_output_usable, optStrTruthy]

theorem generate_route_label (s1 : OrchestrationState) (hst : s1.status = "generating") :
    (should_proceed_after_generate s1).1 =
      (if anthropic_ok s1 || google_ok s1 then
        (if s1.enable_review then "review" else "complete")
       else "error") := by
  unfold should_proceed_after_generate
  cases ha : anthropic_ok s1 <;> cases hg : google_ok s1 <;>
    cases he : s1.enable_review <;> simp [hst, ha, hg, he]

/-- Claim C2: after the generate node runs, should_proceed_after_generate
returns "error" exactly when no backend output is usable (present with
non-empty code and a null error), in which case the routed state carries
status "error" and a non-empty error_message; when some output is usable it
returns "review" or "complete" according to enable_review. -/
theorem C2_generate_routing (env : Env) (s : OrchestrationState) :
    ((should_proceed_after_generate (generate_node env s)).1 = "error" ↔
      ¬ (spec_output_usable (generate_node env s).anthropic_output ∨
         spec_output_usable (generate_node env s).google_output)) ∧
    ((should_proceed_after_generate (generate_node env s)).1 = "error" →
      ((should_proceed_after_generate (generate_node env s)).2).status = "error" ∧
      ((should_proceed_after_generate (generate_node env s)).2).error_message ≠ none ∧
      ((should_proceed_after_generate (generate_node env s)).2).error_message ≠ some "") ∧
    ((spec_output_usable (generate_node env s).anthropic_output ∨
      spec_output_usable (generate_node env s).google_output) →
      (should_proceed_after_generate (generate_node env s)).1 =
        (if s.enable_review then "review" else "complete")) := by
  have hstat := (generate_node_frame env s).2.2.1
  have hen := (generate_node_frame env s).2.2.2.2
  have hlbl := generate_route_label (generate_node env s) hstat
  refine ⟨?_, ?_, ?_⟩
  · rw [hlbl, ← anthropic_ok_iff_usable, ← google_ok_iff_usable]
    cases ha : anthropic_ok (generate_node env s) <;>
      cases hg : google_ok (generate_node env s) <;>
        cases he : (generate_node env s).enable_review <;> simp [he]
  · intro hl
    have hq : status_error_has_message (generate_node env s) := by
      intro hs
      rw [hstat] at hs
      simp at hs
    have hst2 := generate_route_label_error (generate_node env s) hl
    exact ⟨hst2, generate_route_q (generate_node env s) hq hst2⟩
  · rw [← hen, hlbl, ← anthropic_ok_iff_usable, ← google_ok_iff_usable]
    intro h
    rcases h with h | h <;> simp [h]

/-- Witness for C2 at a concrete oracle and fresh state. -/
theorem C2_generate_routing_witness :
    (should_proceed_after_generate (generate_node env0 st0)).1 = "review" := by
  have husable : spec_output_usable (generate_node env0 st0).anthropic_output :=
    ⟨{ code := "let x = 1", model_used := "claude-sonnet-4-5-20250929",
       token_count := pyWordCount "let x = 1", thoughts := [], error := none },
     rfl, by decide, rfl⟩
  have h := (C2_generate_routing env0 st0).2.2 (Or.inl husable)
  simpa using h

theorem mem_add_thought_self (env : Env) (s : OrchestrationState) (t src : String) :
    ∃ th ∈ (_add_thought env s t src).thoughts, th.source = src ∧ th.text = t := by
  refine ⟨{ id := env.thought_id s.thoughts.length, text := t,
            timestamp := env.thought_time s.thoughts.length, source := src },
    ?_, rfl, rfl⟩
  rw [add_thought_thoughts]
  simp

theorem mem_add_thought_mono (env : Env) (s : OrchestrationState) (t src : String)
    (th : ThoughtItem) (h : th ∈ s.thoughts) :
    th ∈ (_add_thought env s t src).thoughts := by
  rw [add_thought_thoughts]
  simp [h]

theorem mem_google_helper_mono (env : Env) (s : OrchestrationState)
    (th : ThoughtItem) (h : th ∈ s.thoughts) :
    th ∈ (_generate_with_google env s).thoughts := by
  cases henv : env.google_generation <;>
    (unfold _generate_with_google; rw [henv];
     exact mem_add_thought_mono env _ _ _ th (mem_add_thought_mono env _ _ _ th h))

theorem anthropic_exn_thought (env : Env) (s : OrchestrationState) (e : String)
    (h : env.anthropic_generation = CallResult.exn e) :
    ∃ th ∈ (_generate_with_anthropic env s).thoughts,
      th.source = "anthropic" ∧ th.text = "Anthropic generation error: " ++ e := by
  unfold _generate_with_anthropic
  rw [h]
  exact mem_add_thought_self env _ _ _

theorem google_exn_thought (env : Env) (s : OrchestrationState) (e : String)
    (h : env.google_generation = CallResult.exn e) :
    ∃ th ∈ (_generate_with_google env s).thoughts,
      th.source = "google" ∧ th.text = "Google generation error: " ++ e := by
  unfold _generate_with_google
  rw [h]
  exact mem_add_thought_self env _ _ _

/-- Claim C7: a failing backend completion during generate is isolated.
The failing backend's CodeOutput records empty code, token_count 0 and the
exception text; an error thought attributed to that backend is appended;
the sibling backend's call still runs and its output is recorded as usual;
and the node leaves status "generating" rather than failing the stage. -/
theorem C7_generate_isolation (env : Env) (s : OrchestrationState) :
    (∀ e, env.anthropic_generation = CallResult.exn e →
      (generate_node env s).anthropic_output = some
        { code := "", model_used := "claude-sonnet-4-5-20250929",
          token_count := 0, thoughts := [], error := some e } ∧
      (∃ th ∈ (generate_node env s).thoughts,
        th.source = "anthropic" ∧ th.text = "Anthropic generation error: " ++ e) ∧
      (∀ c, env.google_generation = CallResult.ok c →
        (generate_node env s).google_output = some
          { code := c, model_used := "gemini-2.0-flash-exp",
            token_count := pyWordCount c, thoughts := [], error := none }) ∧
      (generate_node env s).status = "generating") ∧
    (∀ e, env.google_generation = CallResult.exn e →
      (generate_node env s).google_output = some
        { code := "", model_used := "gemini-2.0-flash-exp",
          token_count := 0, thoughts := [], error := some e } ∧
      (∃ th ∈ (generate_node env s).thoughts,
        th.source = "google" ∧ th.text = "Google generation error: " ++ e) ∧
      (∀ c, env.anthropic_generation = CallResult.ok c →
        (generate_node env s).anthropic_output = some
          { code := c, model_used := "claude-sonnet-4-5-20250929",
            token_count := pyWordCount c, thoughts := [], error := none }) ∧
      (generate_node env s).status = "generating") := by
  obtain ⟨hA, hG⟩ := generate_node_outputs env s
  constructor
  · intro e he
    refine ⟨?_, ?_, ?_, (generate_node_frame env s).2.2.1⟩
    · rw [hA, he]
    · obtain ⟨th, hmem, h1, h2⟩ := anthropic_exn_thought env
        (_add_thought env { s with status := "generating", current_phase := "generating" }
          "Starting code generation phase - dispatching to Anthropic and Google teams"
          "planner") e he
      exact ⟨th, mem_google_helper_mono env _ th hmem, h1, h2⟩
    · intro c hc
      rw [hG, hc]
  · intro e he
    refine ⟨?_, ?_, ?_, (generate_node_frame env s).2.2.1⟩
    · rw [hG, he]
    · exact google_exn_thought env _ e he
    · intro c hc
      rw [hA, hc]

/-- Witness for C7 at a concrete oracle whose anthropic call raises. -/
theorem C7_generate_isolation_witness :
    (generate_node envAnthFail st0).anthropic_output = some
      { code := "", model_used := "claude-sonnet-4-5-20250929",
        token_count := 0, thoughts := [], error := some "rate limited" } ∧
    (generate_node envAnthFail st0).status = "generating" := by
  have h := (C7_generate_isolation envAnthFail st0).1 "rate limited" rfl
  exact ⟨h.1, h.2.2.2⟩

theorem review_code_result_exn (env : Env) (st : OrchestrationState)
    (e : String) (src : String) :
    (_review_code env st (CallResult.exn e) src).2 = default_review_on_failure := rfl

theorem review_code_result_ok (env : Env) (st : OrchestrationState)
    (d : ReviewData) (src : String) :
    (_review_code env st (CallResult.ok d) src).2 =
      { has_issues := d.has_issues.getD false,
        issues := d.issues.getD [],
        suggestions := d.suggestions.getD [],
        confidence := d.confidence.getD (0.8 : ℚ) } := rfl

theorem review_route_not_error (s1 : OrchestrationState) (h : s1.status ≠ "error") :
    (should_proceed_after_review s1).1 ≠ "error" := by
  unfold should_proceed_after_review
  rw [show (s1.status == "error") = false from by simpa using h]
  simp only [Bool.false_eq_true, if_false]
  split
  · simp
  · split <;> simp

theorem review_node_status_enabled (env : Env) (s : OrchestrationState)
    (hr : s.enable_review = true) :
    (review_node env s).status = "reviewing" := by
  unfold review_node
  cases hA : review_selected s.anthropic_output <;>
    cases hG : review_selected s.google_output <;>
      simp [hr, hA, hG, apply_ite, ite_self, review_code_fst_frame]

/-- Claim C8: when parsing one backend's review response fails, that
backend's review result is the permissive default (has_issues false, empty
issues and suggestions, confidence 0.5); the stage stays in "reviewing" and
does not route to error because of the parse failure, and the sibling
backend's parsed review is recorded unaffected. -/
theorem C8_review_parse_default (env : Env) (s : OrchestrationState)
    (hr : s.enable_review = true) (oA oG : CodeOutput)
    (hoA : s.anthropic_output = some oA) (heA : oA.error = none)
    (hoG : s.google_output = some oG) (heG : oG.error = none) :
    (∀ e dG, env.anthropic_review_call s.refinement_iteration.toNat = CallResult.exn e →
      env.google_review_call s.refinement_iteration.toNat = CallResult.ok dG →
      (review_node env s).anthropic_review = some
        { has_issues := false, issues := [], suggestions := [],
          confidence := (0.5 : ℚ) } ∧
      (review_node env s).google_review = some
        { has_issues := dG.has_issues.getD false, issues := dG.issues.getD [],
          suggestions := dG.suggestions.getD [],
          confidence := dG.confidence.getD (0.8 : ℚ) } ∧
      (review_node env s).status = "reviewing" ∧
      (should_proceed_after_review (review_node env s)).1 ≠ "error") ∧
    (∀ e dA, env.google_review_call s.refinement_iteration.toNat = CallResult.exn e →
      env.anthropic_review_call s.refinement_iteration.toNat = CallResult.ok dA →
      (review_node env s).google_review = some
        { has_issues := false, issues := [], suggestions := [],
          confidence := (0.5 : ℚ) } ∧
      (review_node env s).anthropic_review = some
        { has_issues := dA.has_issues.getD false, issues := dA.issues.getD [],
          suggestions := dA.suggestions.getD [],
          confidence := dA.confidence.getD (0.8 : ℚ) } ∧
      (review_node env s).status = "reviewing" ∧
      (should_proceed_after_review (review_node env s)).1 ≠ "error") := by
  have hselA : review_selected s.anthropic_output = true := by
    simp [review_selected, hoA, heA, optStrTruthy]
  have hselG : review_selected s.google_output = true := by
    simp [review_selected, hoG, heG, optStrTruthy]
  have hstat := review_node_status_enabled env s hr
  have hnoerr : (should_proceed_after_review (review_node env s)).1 ≠ "error" :=
    review_route_not_error _ (by rw [hstat]; simp)
  constructor
  · intro e dG hcA hcG
    refine ⟨?_, ?_, hstat, hnoerr⟩
    · unfold review_node
      simp [hr, hselA, hselG, hcA, apply_ite, ite_self, review_code_fst_frame,
        review_code_result_exn, default_review_on_failure]
    · unfold review_node
      simp [hr, hselA, hselG, hcG, apply_ite, ite_self, review_code_fst_frame,
        review_code_result_ok]
  · intro e dA hcG hcA
    refine ⟨?_, ?_, hstat, hnoerr⟩
    · unfold review_node
      simp [hr, hselA, hselG, hcG, apply_ite, ite_self, review_code_fst_frame,
        review_code_result_exn, default_review_on_failure]
    · unfold review_node
      simp [hr, hselA, hselG, hcA, apply_ite, ite_self, review_code_fst_frame,
        review_code_result_ok]

/-- Witness for C8 at a concrete oracle whose anthropic review response
fails to parse while google's parses cleanly. -/
theorem C8_review_parse_default_witness :
    (review_node envParseFail stReviewable).anthropic_review = some
      { has_issues := false, issues := [], suggestions := [],
        confidence := (0.5 : ℚ) } ∧
    (review_node envParseFail stReviewable).status = "reviewing" := by
  have h := (C8_review_parse_default envParseFail stReviewable rfl
      { code := "let x = 1", model_used := "claude-sonnet-4-5-20250929",
        token_count := 4, thoughts := [], error := none }
      { code := "const y = 2", model_used := "gemini-2.0-flash-exp",
        token_count := 4, thoughts := [], error := none }
      rfl rfl rfl rfl).1 "Expecting value: line 1 column 1" cleanReviewData rfl rfl
  exact ⟨h.1, h.2.2.1⟩

/-- Claim C10: every successful generation stores a token_count equal to
the whitespace-word count of the stored code (computed by the engine from
the code, not reported by the backend), every successful refinement
recomputes it the same way for the replacement code, and the count is zero
exactly when the stored code has no words. -/
theorem C10_token_count (env : Env) (s : OrchestrationState) :
    (∀ c, env.anthropic_generation = CallResult.ok c →
      (generate_node env s).anthropic_output = some
        { code := c, model_used := "claude-sonnet-4-5-20250929",
          token_count := pyWordCount c, thoughts := [], error := none }) ∧
    (∀ c, env.google_generation = CallResult.ok c →
      (generate_node env s).google_output = some
        { code := c, model_used := "gemini-2.0-flash-exp",
          token_count := pyWordCount c, thoughts := [], error := none }) ∧
    (∀ c o rv, s.anthropic_output = some o → s.anthropic_review = some rv →
      rv.has_issues = true →
      env.anthropic_refine_call (s.refinement_iteration + 1).toNat = CallResult.ok c →
      (refine_node env s).anthropic_output =
        some { o with code := c, token_count := pyWordCount c }) ∧
    (∀ c o rv, s.google_output = some o → s.google_review = some rv →
      rv.has_issues = true →
      env.google_refine_call (s.refinement_iteration + 1).toNat = CallResult.ok c →
      (refine_node env s).google_output =
        some { o with code := c, token_count := pyWordCount c }) ∧
    (∀ c, pyWordCount c = 0 ↔ pySplit c = []) := by
  obtain ⟨hA, hG⟩ := generate_node_outputs env s
  refine ⟨?_, ?_, ?_, ?_, ?_⟩
  · intro c hc
    rw [hA, hc]
  · intro c hc
    rw [hG, hc]
  · intro c o rv ho hrv hissues hc
    have hselA : refine_selected s.anthropic_output s.anthropic_review = true := by
      simp [refine_selected, ho, hrv, hissues]
    unfold refine_node
    cases hsg : refine_selected s.google_output s.google_review with
    | false =>
      simp only [hselA, hsg, if_true, if_false, Bool.false_eq_true]
      rw [add_thought_anthropic_output, hc,
        refine_code_anthropic_output env _ c o (by simp [ho])]
    | true =>
      simp only [hselA, hsg, if_true]
      rw [add_thought_anthropic_output, refine_code_google_keeps_anthropic, hc,
        refine_code_anthropic_output env _ c o (by simp [ho])]
  · intro c o rv ho hrv hissues hc
    have hselG : refine_selected s.google_output s.google_review = true := by
      simp [refine_selected, ho, hrv, hissues]
    unfold refine_node
    cases hsa : refine_selected s.anthropic_output s.anthropic_review with
    | false =>
      simp only [hselG, hsa, if_true, if_false, Bool.false_eq_true]
      rw [add_thought_google_output, hc,
        refine_code_google_output env _ c o (by simp [ho])]
    | true =>
      simp only [hselG, hsa, if_true]
      rw [add_thought_google_output, hc,
        refine_code_google_output env _ c o (by simp [ho, refine_code_anthropic_keeps_google])]
  · intro c
    simp [pyWordCount, List.length_eq_zero]

/-- Witness for C10 at a concrete oracle and fresh state. -/
theorem C10_token_count_witness :
    (generate_node env0 st0).anthropic_output = some
      { code := "let x = 1", model_used := "claude-sonnet-4-5-20250929",
        token_count := pyWordCount "let x = 1", thoughts := [], error := none } :=
  (C10_token_count env0 st0).1 "let x = 1" rfl

end Chimera
